import Mathlib

/-!
Shallow embedding of the websocket-ssh-server bridge core (Go), together with
theorems settling the specification claims about it.

The embedding follows the Go sources:
* `internal/services/ssh.go` — `SSHSession`, `StartSSHSession`, `HandleOutput`,
  `SendInput`, `ResizeTerminal`, `Close` (the variant using the `AppError`
  taxonomy);
* `internal/clients/client.go` — the client registry (`GetClient`, `AddClient`,
  `CleanupConnection`);
* `internal/utils/get_ssh_auth_methods.go` — `GetSSHAuthMethods`;
* `internal/utils/errors.go` — `AppError`;
* the `handlers.HandleWebSocket` control loop and the older
  `SetupSSHConnection` / `ExecuteCommand` / `handleMessage` line-buffered
  command variant.

External effects (network dials, pipe creation, reads, window-change requests,
private-key parsing) are modelled as oracle parameters or explicit outcome
environments; the control flow around them is translated statement by
statement from the Go code.
-/

namespace WsSsh

/-- `utils.AppError` (errors.go): a classified failure with a stable code and a
peer-safe message.  The wrapped Go `error` cause is dropped, as no claim
inspects it; `NewAppError` records code and message exactly as the Go
constructor does. -/
structure AppError where
  Code : String
  Message : String
deriving DecidableEq, Repr

/-- `utils.NewAppError` (errors.go), with the wrapped cause elided. -/
def NewAppError (code message : String) : AppError :=
  { Code := code, Message := message }

/-- `utils.SSHConfig` (get_ssh_auth_methods.go): the credential record decoded
from the peer's config payload. -/
structure SSHConfig where
  Host : String
  Port : Int
  User : String
  Password : String
  PrivateKey : String
deriving DecidableEq, Repr

/-- An `ssh.AuthMethod` as produced by the resolver: either password
authentication or public-key authentication over a parsed signer (the signer is
modelled as an opaque string token produced by the parsing oracle). -/
inductive AuthMethod where
  | password (pw : String)
  | publicKeys (key : String)
deriving DecidableEq, Repr

/-- `utils.GetSSHAuthMethods` (get_ssh_auth_methods.go).  The two
`golang.org/x/crypto/ssh` key parsers are oracle parameters:
`parseWithPassphrase` models `ssh.ParsePrivateKeyWithPassphrase` and
`parsePrivateKey` models `ssh.ParsePrivateKey`; `none` is a parse error, in
which case the Go code logs and returns the methods accumulated so far. -/
def GetSSHAuthMethods (parseWithPassphrase : String → String → Option String)
    (parsePrivateKey : String → Option String) (config : SSHConfig) :
    List AuthMethod :=
  let authMethods : List AuthMethod :=
    if config.Password ≠ "" then [AuthMethod.password config.Password] else []
  if config.PrivateKey ≠ "" then
    if config.Password ≠ "" then
      match parseWithPassphrase config.PrivateKey config.Password with
      | none => authMethods
      | some key => authMethods ++ [AuthMethod.publicKeys key]
    else
      match parsePrivateKey config.PrivateKey with
      | none => authMethods
      | some key => authMethods ++ [AuthMethod.publicKeys key]
  else
    authMethods

/-- The `ssh.ClientConfig` record, restricted to the fields the bridge sets.
`TimeoutNs` mirrors the Go `Timeout time.Duration` field in nanoseconds; a Go
composite literal that omits it leaves it at the zero value `0`, which
`ssh.Dial` treats as "no timeout". -/
structure ClientConfig where
  User : String
  Auth : List AuthMethod
  InsecureIgnoreHostKey : Bool
  TimeoutNs : Nat
deriving DecidableEq, Repr

/-- The `ssh.ClientConfig` built by `services.StartSSHSession` (ssh.go): the
composite literal sets `User`, `Auth` and `HostKeyCallback` only, so `Timeout`
stays at its zero value. -/
def startSSHSessionClientConfig (parseWithPassphrase : String → String → Option String)
    (parsePrivateKey : String → Option String) (config : SSHConfig) : ClientConfig :=
  { User := config.User
    Auth := GetSSHAuthMethods parseWithPassphrase parsePrivateKey config
    InsecureIgnoreHostKey := true
    TimeoutNs := 0 }

/-- The `ssh.ClientConfig` built by `services.SetupSSHConnection` (the older
sshData variant): it sets `Timeout: 10 * time.Second`.  The user and the auth
list, already assembled by the surrounding code, are passed through. -/
def setupSSHConnectionClientConfig (user : String) (auth : List AuthMethod) :
    ClientConfig :=
  { User := user
    Auth := auth
    InsecureIgnoreHostKey := true
    TimeoutNs := 10 * 1000000000 }

/-- Outcome environment for one run of `services.StartSSHSession`: which of the
fallible construction steps succeed.  Each field models the `err == nil` result
of the corresponding call in ssh.go. -/
structure StartEnv where
  unmarshalOk : Bool
  dialOk : Bool
  newSessionOk : Bool
  stdinPipeOk : Bool
  stdoutPipeOk : Bool
  stderrPipeOk : Bool
  requestPtyOk : Bool
  shellOk : Bool
deriving DecidableEq, Repr

/-- Observable result of `services.StartSSHSession`: the error code returned
(`none` on success), whether `ssh.Dial` produced a client, and whether
`client.Close()` was invoked before returning. -/
structure StartResult where
  errCode : Option String
  clientOpened : Bool
  clientClosed : Bool
deriving DecidableEq, Repr

/-- `services.StartSSHSession` (ssh.go), translated branch by branch.  The Go
code closes the dialed client before returning on `NewSession`, `RequestPty`
and `Shell` failures, but returns directly — without `client.Close()` — on
`StdinPipe`, `StdoutPipe` and `StderrPipe` failures. -/
def StartSSHSession (e : StartEnv) : StartResult :=
  if !e.unmarshalOk then ⟨some "INVALID_CONFIG", false, false⟩
  else if !e.dialOk then ⟨some "SSH_CONNECTION_FAILED", false, false⟩
  else if !e.newSessionOk then ⟨some "SSH_SESSION_CREATION_FAILED", true, true⟩
  else if !e.stdinPipeOk then ⟨some "STDIN_PIPE_FAILED", true, false⟩
  else if !e.stdoutPipeOk then ⟨some "STDOUT_PIPE_FAILED", true, false⟩
  else if !e.stderrPipeOk then ⟨some "STDERR_PIPE_FAILED", true, false⟩
  else if !e.requestPtyOk then ⟨some "PTY_REQUEST_FAILED", true, true⟩
  else if !e.shellOk then ⟨some "SHELL_START_FAILED", true, true⟩
  else ⟨none, true, false⟩

/-- Result of one `stdout.Read` inside the output pump. -/
inductive ReadResult where
  | ok (data : String)
  | eof
  | err (msg : String)
deriving DecidableEq, Repr

/-- Observable effect of one iteration of `SSHSession.HandleOutput`'s loop:
the classified error reported to the peer (if any), the output frame forwarded
(if any), whether `s.Close()` was invoked, and whether the pump stops. -/
structure PumpStep where
  errorSent : Option AppError
  outputSent : Option String
  sessionClosed : Bool
  stops : Bool
deriving DecidableEq, Repr

/-- One iteration of `SSHSession.HandleOutput` (ssh.go, `AppError` variant):
the `select` first checks context cancellation and the `Done` channel, then
reads from stdout.  `io.EOF` closes the session silently; any other read error
is classified as `OUTPUT_READ_FAILED`, reported to the peer, and followed by
`s.Close()`; a successful read is forwarded as an "output" frame. -/
def HandleOutputStep (ctxDone doneClosed : Bool) (r : ReadResult) : PumpStep :=
  if ctxDone then ⟨none, none, false, true⟩
  else if doneClosed then ⟨none, none, false, true⟩
  else
    match r with
    | ReadResult.eof => ⟨none, none, true, true⟩
    | ReadResult.err _ =>
        ⟨some (NewAppError "OUTPUT_READ_FAILED" "Failed to read SSH session output"),
         none, true, true⟩
    | ReadResult.ok data => ⟨none, some data, false, false⟩

/-- C1: For every construction failure after a successful dial, StartSSHSession
closes the already-opened SSH client connection before returning the error.
The code refutes this on the three pipe-failure paths: it returns
`STDIN_PIPE_FAILED` / `STDOUT_PIPE_FAILED` / `STDERR_PIPE_FAILED` with the
dialed client still open (`clientOpened = true`, `clientClosed = false`),
leaking the transport. -/
theorem c1_pipe_failures_leak_transport :
    StartSSHSession ⟨true, true, true, false, true, true, true, true⟩ =
      ⟨some "STDIN_PIPE_FAILED", true, false⟩ ∧
    StartSSHSession ⟨true, true, true, true, false, true, true, true⟩ =
      ⟨some "STDOUT_PIPE_FAILED", true, false⟩ ∧
    StartSSHSession ⟨true, true, true, true, true, false, true, true⟩ =
      ⟨some "STDERR_PIPE_FAILED", true, false⟩ := by
  refine ⟨rfl, rfl, rfl⟩

/-- C2: In the output pump, an end-of-stream read error closes the whole
session normally with no error message, while any other read error is
classified as `OUTPUT_READ_FAILED`, reported to the peer, and followed by
session close and pump termination. -/
theorem c2_output_read_error_classification (e : String) :
    HandleOutputStep false false ReadResult.eof = ⟨none, none, true, true⟩ ∧
    HandleOutputStep false false (ReadResult.err e) =
      ⟨some (NewAppError "OUTPUT_READ_FAILED" "Failed to read SSH session output"),
       none, true, true⟩ := by
  exact ⟨rfl, rfl⟩

/-- Concrete instantiation of `c2_output_read_error_classification` at the
read error "connection reset". -/
theorem c2_output_read_error_classification_witness :
    HandleOutputStep false false ReadResult.eof = ⟨none, none, true, true⟩ ∧
    HandleOutputStep false false (ReadResult.err "connection reset") =
      ⟨some (NewAppError "OUTPUT_READ_FAILED" "Failed to read SSH session output"),
       none, true, true⟩ :=
  c2_output_read_error_classification "connection reset"

/-- `clients.Client` (client.go): one connected peer.  The WebSocket handle is
modelled as an opaque numeric connection id and the attached SSH client/session
as an optional opaque handle; the mutex guards nothing in a sequential model. -/
structure Client where
  Conn : Nat
  SSHClient : Option Nat
  IsConnected : Bool
  CommandBuffer : String
deriving DecidableEq, Repr

/-- The `clients` registry map, modelled as an association list with unique
keys (insertion replaces, deletion filters every occurrence), matching Go map
semantics observably through lookup. -/
abbrev Registry := List (String × Client)

/-- `clients.GetClient` (client.go): `clients[clientID]`, `none` when absent. -/
def GetClient (clientID : String) : Registry → Option Client
  | [] => none
  | (k, v) :: rest => if k = clientID then some v else GetClient clientID rest

/-- Deletion of a key from the registry map (`delete(clients, clientID)`). -/
def regErase (clientID : String) : Registry → Registry
  | [] => []
  | (k, v) :: rest =>
      if k = clientID then regErase clientID rest
      else (k, v) :: regErase clientID rest

/-- `clients.AddClient` (client.go): `clients[clientID] = client`, replacing any
existing binding. -/
def AddClient (clientID : String) (client : Client) (reg : Registry) : Registry :=
  (clientID, client) :: regErase clientID reg

/-- A resource release performed by teardown code: closing the attached SSH
client (by handle) or closing the peer WebSocket (by connection id). -/
inductive CloseAction where
  | sshClosed (handle : Nat)
  | wsClosed (conn : Nat)
deriving DecidableEq, Repr

/-- `clients.CleanupConnection` (client.go): under the registry lock, look the
client up; if present, close its SSH client when attached, close its WebSocket
connection, and delete the entry; an absent id does nothing. -/
def CleanupConnection (clientID : String) (reg : Registry) :
    Registry × List CloseAction :=
  match GetClient clientID reg with
  | some client =>
      (regErase clientID reg,
       (match client.SSHClient with
        | some h => [CloseAction.sshClosed h]
        | none => []) ++ [CloseAction.wsClosed client.Conn])
  | none => (reg, [])

theorem getClient_regErase (clientID : String) (reg : Registry) :
    GetClient clientID (regErase clientID reg) = none := by
  induction reg with
  | nil => rfl
  | cons hd tl ih =>
      obtain ⟨k, v⟩ := hd
      by_cases h : k = clientID
      · simp [regErase, h, ih]
      · simp [regErase, h, GetClient, ih]

theorem regErase_of_getClient_none (clientID : String) (reg : Registry)
    (h : GetClient clientID reg = none) : regErase clientID reg = reg := by
  induction reg with
  | nil => rfl
  | cons hd tl ih =>
      obtain ⟨k, v⟩ := hd
      by_cases hk : k = clientID
      · simp [GetClient, hk] at h
      · simp [GetClient, hk] at h
        simp [regErase, hk, ih h]

/-- C5: `CleanupConnection` is idempotent and total: a second call on the same
identifier leaves the registry exactly as the first call did and performs no
further resource release, and a call on an absent identifier returns the
registry unchanged with no resource release (a no-op, not an error). -/
theorem c5_cleanup_idempotent (clientID : String) (reg : Registry) :
    CleanupConnection clientID (CleanupConnection clientID reg).1 =
      ((CleanupConnection clientID reg).1, []) ∧
    (GetClient clientID reg = none → CleanupConnection clientID reg = (reg, [])) := by
  constructor
  · cases h : GetClient clientID reg with
    | none =>
        simp [CleanupConnection, h]
    | some client =>
        simp [CleanupConnection, h, getClient_regErase]
  · intro h
    simp [CleanupConnection, h]

/-- Concrete instantiation of `c5_cleanup_idempotent`: double cleanup of "a" on
a one-entry registry, and cleanup of the absent id "b". -/
theorem c5_cleanup_idempotent_witness :
    (CleanupConnection "a"
        (CleanupConnection "a" [("a", ⟨7, some 3, true, ""⟩)]).1 =
      ((CleanupConnection "a" [("a", ⟨7, some 3, true, ""⟩)]).1, [])) ∧
    (GetClient "b" [("a", (⟨7, some 3, true, ""⟩ : Client))] = none ∧
      CleanupConnection "b" [("a", ⟨7, some 3, true, ""⟩)] =
        ([("a", ⟨7, some 3, true, ""⟩)], [])) := by
  refine ⟨(c5_cleanup_idempotent "a" [("a", ⟨7, some 3, true, ""⟩)]).1,
    by decide, (c5_cleanup_idempotent "b" [("a", ⟨7, some 3, true, ""⟩)]).2 (by decide)⟩

/-- A resource release performed by `SSHSession.Close`, in the order the Go
code performs them: closing the `Done` channel, then the shell session handle,
then the SSH transport client, then the WebSocket connection. -/
inductive CloseEvent where
  | doneChanClosed
  | shellHandleClosed
  | transportClosed
  | wsConnClosed
deriving DecidableEq, Repr

/-- The teardown-relevant state of an `SSHSession`: whether the `sync.Once`
guard has run, and the ordered trace of close events performed so far. -/
structure SessionState where
  onceDone : Bool
  events : List CloseEvent
deriving DecidableEq, Repr

/-- A freshly constructed `SSHSession`: `once` unused, nothing closed. -/
def freshSession : SessionState := ⟨false, []⟩

/-- `SSHSession.Close` (ssh.go): `s.once.Do` runs the teardown body at most
once; the body closes `Done` first, then — each guarded by a nil check — the
session handle, the client transport and the WebSocket connection.  The three
nil-check flags are parameters; a session built by `StartSSHSession` has all
three handles non-nil. -/
def SessionClose (hasSession hasClient hasConn : Bool) (s : SessionState) :
    SessionState :=
  if s.onceDone then s
  else
    { onceDone := true
      events := s.events ++ [CloseEvent.doneChanClosed]
        ++ (if hasSession then [CloseEvent.shellHandleClosed] else [])
        ++ (if hasClient then [CloseEvent.transportClosed] else [])
        ++ (if hasConn then [CloseEvent.wsConnClosed] else []) }

theorem sessionClose_of_onceDone (hasSession hasClient hasConn : Bool)
    (s : SessionState) (h : s.onceDone = true) :
    SessionClose hasSession hasClient hasConn s = s := by
  simp [SessionClose, h]

/-- C4: `Close` is idempotent: for every N ≥ 1 invocations on a session with
all three handles attached, exactly one full teardown occurs — the trace is
exactly `Done` closed, then the shell handle, the transport and the peer
channel, each once, with the termination signal first, regardless of N. -/
theorem c4_close_idempotent (N : Nat) (h : 1 ≤ N) :
    (SessionClose true true true)^[N] freshSession =
      ⟨true, [CloseEvent.doneChanClosed, CloseEvent.shellHandleClosed,
              CloseEvent.transportClosed, CloseEvent.wsConnClosed]⟩ := by
  induction N with
  | zero => omega
  | succ n ih =>
      rcases Nat.eq_or_lt_of_le h with h1 | h1
      · simp [← h1, freshSession, SessionClose]
      · rw [Function.iterate_succ_apply', ih (by omega)]
        exact sessionClose_of_onceDone true true true _ rfl

/-- Concrete instantiation of `c4_close_idempotent` at N = 3. -/
theorem c4_close_idempotent_witness :
    (SessionClose true true true)^[3] freshSession =
      ⟨true, [CloseEvent.doneChanClosed, CloseEvent.shellHandleClosed,
              CloseEvent.transportClosed, CloseEvent.wsConnClosed]⟩ :=
  c4_close_idempotent 3 (by omega)

/-- The construction phase of `handlers.HandleWebSocket` (`AppError` variant),
starting after the upgrade, client-id check and successful initial read: a
placeholder `Client` is built and registered via `AddClient`, then
`StartSSHSession` runs on the initial message's content.  On failure the
handler logs, writes one error frame built from
`NewAppError("SSH_SESSION_FAILED", ...)` and returns — it never removes the
registry entry.  On success it attaches the session handle to the registered
client and proceeds (returning `true`).  The result is the registry, the error
frames written on this path, and whether a session was started. -/
def handleWebSocketStart (reg : Registry) (clientID : String) (connId : Nat)
    (sessionHandle : Nat) (e : StartEnv) : Registry × List AppError × Bool :=
  let client : Client := { Conn := connId, SSHClient := none,
                           IsConnected := true, CommandBuffer := "" }
  let reg1 := AddClient clientID client reg
  match (StartSSHSession e).errCode with
  | some _ =>
      (reg1, [NewAppError "SSH_SESSION_FAILED" "Failed to start SSH session"], false)
  | none =>
      (AddClient clientID { client with SSHClient := some sessionHandle } reg1,
       [], true)

/-- A `StartEnv` in which the remote dial fails (unreachable host). -/
def dialFailEnv : StartEnv := ⟨true, false, true, true, true, true, true, true⟩

/-- C3 as stated is false: after a failed construction (dial failure on an
unreachable host) the handler does send exactly one error frame, but the
registry still holds the placeholder record for the session identifier, so a
subsequent `GetClient` does NOT return absent. -/
theorem c3_counterexample :
    ¬ ((handleWebSocketStart [] "k" 0 1 dialFailEnv).2.1 =
          [NewAppError "SSH_SESSION_FAILED" "Failed to start SSH session"] ∧
       GetClient "k" (handleWebSocketStart [] "k" 0 1 dialFailEnv).1 = none) := by
  decide

/-- C3 amended: after a failed `StartSSHSession`, the peer is sent exactly one
error message, and the registry retains the placeholder client record (with no
attached session) for that identifier — a subsequent `GetClient` returns that
record, not absent. -/
theorem c3_amended_one_error_entry_retained (reg : Registry) (clientID : String)
    (connId sessionHandle : Nat) (e : StartEnv)
    (h : (StartSSHSession e).errCode.isSome = true) :
    (handleWebSocketStart reg clientID connId sessionHandle e).2.1 =
      [NewAppError "SSH_SESSION_FAILED" "Failed to start SSH session"] ∧
    GetClient clientID (handleWebSocketStart reg clientID connId sessionHandle e).1 =
      some { Conn := connId, SSHClient := none,
             IsConnected := true, CommandBuffer := "" } := by
  cases heq : (StartSSHSession e).errCode with
  | none => rw [heq] at h; simp at h
  | some code =>
      constructor
      · simp [handleWebSocketStart, heq]
      · simp [handleWebSocketStart, heq, AddClient, GetClient]

/-- Concrete instantiation of `c3_amended_one_error_entry_retained` at the
dial-failure environment on an empty registry. -/
theorem c3_amended_witness :
    (handleWebSocketStart [] "k" 0 1 dialFailEnv).2.1 =
      [NewAppError "SSH_SESSION_FAILED" "Failed to start SSH session"] ∧
    GetClient "k" (handleWebSocketStart [] "k" 0 1 dialFailEnv).1 =
      some { Conn := 0, SSHClient := none,
             IsConnected := true, CommandBuffer := "" } :=
  c3_amended_one_error_entry_retained [] "k" 0 1 dialFailEnv (by decide)

/-- C6: auth-method resolution policy.  With a password present, password
authentication is in the list.  With private-key material present, the key is
parsed with the password as passphrase exactly when a password was supplied and
plain otherwise, public-key authentication being appended on successful parse
and omitted (leaving the methods gathered so far, never an unhandled failure)
on parse error.  With neither password nor key the list is empty. -/
theorem c6_auth_method_resolution
    (parseWithPassphrase : String → String → Option String)
    (parsePrivateKey : String → Option String) (config : SSHConfig) :
    (config.Password ≠ "" →
      AuthMethod.password config.Password ∈
        GetSSHAuthMethods parseWithPassphrase parsePrivateKey config) ∧
    (config.Password ≠ "" → config.PrivateKey ≠ "" →
      GetSSHAuthMethods parseWithPassphrase parsePrivateKey config =
        [AuthMethod.password config.Password] ++
          (match parseWithPassphrase config.PrivateKey config.Password with
           | some key => [AuthMethod.publicKeys key]
           | none => [])) ∧
    (config.Password = "" → config.PrivateKey ≠ "" →
      GetSSHAuthMethods parseWithPassphrase parsePrivateKey config =
        (match parsePrivateKey config.PrivateKey with
         | some key => [AuthMethod.publicKeys key]
         | none => [])) ∧
    (config.Password = "" → config.PrivateKey = "" →
      GetSSHAuthMethods parseWithPassphrase parsePrivateKey config = []) := by
  refine ⟨?_, ?_, ?_, ?_⟩
  · intro hpw
    by_cases hk : config.PrivateKey = ""
    · simp [GetSSHAuthMethods, hpw, hk]
    · cases hp : parseWithPassphrase config.PrivateKey config.Password <;>
        simp [GetSSHAuthMethods, hpw, hk, hp]
  · intro hpw hk
    cases hp : parseWithPassphrase config.PrivateKey config.Password <;>
      simp [GetSSHAuthMethods, hpw, hk, hp]
  · intro hpw hk
    cases hp : parsePrivateKey config.PrivateKey <;>
      simp [GetSSHAuthMethods, hpw, hk, hp]
  · intro hpw hk
    simp [GetSSHAuthMethods, hpw, hk]

/-- Concrete instantiation of `c6_auth_method_resolution`: a record with both
password and key whose passphrase parse succeeds, a record with only a key
whose plain parse fails, and a record with neither. -/
theorem c6_auth_method_resolution_witness :
    GetSSHAuthMethods (fun _ _ => some "SIGNER") (fun _ => none)
        ⟨"h", 22, "u", "pw", "KEY"⟩ =
      [AuthMethod.password "pw", AuthMethod.publicKeys "SIGNER"] ∧
    GetSSHAuthMethods (fun _ _ => some "SIGNER") (fun _ => none)
        ⟨"h", 22, "u", "", "KEY"⟩ = [] ∧
    GetSSHAuthMethods (fun _ _ => some "SIGNER") (fun _ => none)
        ⟨"h", 22, "u", "", ""⟩ = [] := by
  refine ⟨?_, ?_, ?_⟩
  · exact (c6_auth_method_resolution (fun _ _ => some "SIGNER") (fun _ => none)
      ⟨"h", 22, "u", "pw", "KEY"⟩).2.1 (by decide) (by decide)
  · exact (c6_auth_method_resolution (fun _ _ => some "SIGNER") (fun _ => none)
      ⟨"h", 22, "u", "", "KEY"⟩).2.2.1 rfl (by decide)
  · exact (c6_auth_method_resolution (fun _ _ => some "SIGNER") (fun _ => none)
      ⟨"h", 22, "u", "", ""⟩).2.2.2 rfl rfl

/-- Result of `SSHSession.ResizeTerminal` (ssh.go, error-returning variant):
the `WindowChange` invocations made and the error surfaced to the caller.  The
underlying `session.WindowChange` call is the oracle `windowChange`, returning
`some msg` on failure and `none` on success. -/
structure ResizeResult where
  windowChangeCalls : List (Int × Int)
  err : Option String
deriving DecidableEq, Repr

/-- `SSHSession.ResizeTerminal` (ssh.go): issues `WindowChange(rows, cols)` and
returns its error (logging it first) to the caller. -/
def ResizeTerminal (windowChange : Int → Int → Option String) (rows cols : Int) :
    ResizeResult :=
  ⟨[(rows, cols)], windowChange rows cols⟩

/-- Observable effect of the "resize" case of the handler message loop. -/
structure ResizeDispatch where
  windowChangeCalls : List (Int × Int)
  errorsSent : List AppError
  loopReturns : Bool
  sessionClosed : Bool
deriving DecidableEq, Repr

/-- The `case "resize"` branch of `handlers.HandleWebSocket`'s message loop:
call `ResizeTerminal(msg.Rows, msg.Cols)`; on error, log and write one
`RESIZE_FAILED` error frame; in either case neither close the session nor
return from the loop. -/
def handleResizeMessage (windowChange : Int → Int → Option String)
    (rows cols : Int) : ResizeDispatch :=
  let r := ResizeTerminal windowChange rows cols
  match r.err with
  | some _ =>
      ⟨r.windowChangeCalls,
       [NewAppError "RESIZE_FAILED" "Failed to resize terminal"], false, false⟩
  | none => ⟨r.windowChangeCalls, [], false, false⟩

/-- C7: a resize message with rows r and cols c invokes the underlying
window-change call with exactly (r, c); on window-change failure the peer
receives exactly one `RESIZE_FAILED` error and the session stays open (no
close, loop continues); on success no error is sent. -/
theorem c7_resize_dispatch (windowChange : Int → Int → Option String)
    (rows cols : Int) :
    (handleResizeMessage windowChange rows cols).windowChangeCalls =
      [(rows, cols)] ∧
    (∀ msg, windowChange rows cols = some msg →
      (handleResizeMessage windowChange rows cols).errorsSent =
        [NewAppError "RESIZE_FAILED" "Failed to resize terminal"]) ∧
    (windowChange rows cols = none →
      (handleResizeMessage windowChange rows cols).errorsSent = []) ∧
    (handleResizeMessage windowChange rows cols).sessionClosed = false ∧
    (handleResizeMessage windowChange rows cols).loopReturns = false := by
  cases h : windowChange rows cols <;>
    simp [handleResizeMessage, ResizeTerminal, h]

/-- Concrete instantiation of `c7_resize_dispatch` at rows = 40, cols = 120
with a failing window-change call. -/
theorem c7_resize_dispatch_witness :
    (handleResizeMessage (fun _ _ => some "boom") 40 120).windowChangeCalls =
      [(40, 120)] ∧
    (handleResizeMessage (fun _ _ => some "boom") 40 120).errorsSent =
      [NewAppError "RESIZE_FAILED" "Failed to resize terminal"] ∧
    (handleResizeMessage (fun _ _ => some "boom") 40 120).sessionClosed = false := by
  have h := c7_resize_dispatch (fun _ _ => some "boom") 40 120
  exact ⟨h.1, h.2.1 "boom" rfl, h.2.2.2.1⟩

/-- C8 as stated is false: the `ssh.ClientConfig` built by `StartSSHSession`
for the initial remote dial leaves `Timeout` at its zero value, so the dial
carries no non-zero connect timeout bound. -/
theorem c8_counterexample :
    ¬ (0 < (startSSHSessionClientConfig (fun _ _ => none) (fun _ => none)
        ⟨"h", 22, "u", "", ""⟩).TimeoutNs) := by
  decide

/-- C8 amended: only the older `SetupSSHConnection` variant's dial config
carries a bounded, non-zero connect timeout (10 seconds); the
`StartSSHSession` variant's dial config leaves the timeout at its zero value,
meaning its dial has no timeout bound. -/
theorem c8_amended_timeouts (user : String) (auth : List AuthMethod)
    (parseWithPassphrase : String → String → Option String)
    (parsePrivateKey : String → Option String) (config : SSHConfig) :
    (setupSSHConnectionClientConfig user auth).TimeoutNs = 10000000000 ∧
    0 < (setupSSHConnectionClientConfig user auth).TimeoutNs ∧
    (startSSHSessionClientConfig parseWithPassphrase parsePrivateKey
      config).TimeoutNs = 0 := by
  refine ⟨rfl, by simp [setupSSHConnectionClientConfig], rfl⟩

/-- Concrete instantiation of `c8_amended_timeouts`. -/
theorem c8_amended_timeouts_witness :
    (setupSSHConnectionClientConfig "u" []).TimeoutNs = 10000000000 ∧
    0 < (setupSSHConnectionClientConfig "u" []).TimeoutNs ∧
    (startSSHSessionClientConfig (fun _ _ => none) (fun _ => none)
      ⟨"h", 22, "u", "", ""⟩).TimeoutNs = 0 :=
  c8_amended_timeouts "u" [] (fun _ _ => none) (fun _ => none) ⟨"h", 22, "u", "", ""⟩

/-- `services.ExecuteCommand` (line-buffered variant): with a nil or
disconnected client, send an error and deliver nothing; otherwise forward the
command to the SSH connection as one delivery.  The nil check is elided: the
caller `handleMessage` has already returned on a nil client.  The result is
(deliveries forwarded, error messages sent). -/
def ExecuteCommand (client : Client) (command : String) :
    List String × List String :=
  if !client.IsConnected then ([], ["No SSH connection available"])
  else ([command], [])

/-- The `msg["type"] == "command"` branch of `handlers.handleMessage`
(line-buffered variant): append the fragment to the client's command buffer
under the lock; when the fragment is exactly `"\n"`, execute the accumulated
buffer and clear it.  The result is the updated client, the deliveries
forwarded, and the error messages sent. -/
def handleCommandMessage (client : Client) (command : String) :
    Client × List String × List String :=
  let client1 := { client with CommandBuffer := client.CommandBuffer ++ command }
  if command = "\n" then
    let r := ExecuteCommand client1 client1.CommandBuffer
    ({ client1 with CommandBuffer := "" }, r.1, r.2)
  else
    (client1, [], [])

/-- Sequential handling of a list of "command" fragments for one client,
accumulating deliveries and errors in order. -/
def handleCommandMessages (client : Client) :
    List String → Client × List String × List String
  | [] => (client, [], [])
  | c :: cs =>
      let r1 := handleCommandMessage client c
      let r2 := handleCommandMessages r1.1 cs
      (r2.1, r1.2.1 ++ r2.2.1, r1.2.2 ++ r2.2.2)

/-- C9: handling the command fragments "l", "s", "\n" in order for one
connected client forwards exactly one input delivery, whose content is the
concatenation "ls\n", and leaves the client's command buffer empty. -/
theorem c9_command_buffer_flush :
    (handleCommandMessages ⟨0, some 1, true, ""⟩ ["l", "s", "\n"]).2.1 =
      ["ls\n"] ∧
    (handleCommandMessages ⟨0, some 1, true, ""⟩ ["l", "s", "\n"]).1.CommandBuffer =
      "" := by
  decide

/-- Per-fragment forwarding of the "input" case of
`handlers.HandleWebSocket`'s message loop (raw-keystroke variant): append the
content to the command buffer; when the buffer now equals the sentinel
`"exit\r"`, close the session and return without forwarding; otherwise forward
just this fragment via `SendInput`.  The result is the new buffer, whether the
session was closed (loop returned), and the inputs forwarded. -/
def handleInputMessage (buffer content : String) :
    String × Bool × List String :=
  let buffer1 := buffer ++ content
  if buffer1 = "exit\r" then (buffer1, true, [])
  else (buffer1, false, [content])

/-- The "input"-message suffix of the handler loop: process fragments in
order, stopping when the exit sentinel fires.  Result: final buffer, whether
the sentinel fired, and all inputs forwarded. -/
def runInputLoop : String → List String → String × Bool × List String
  | buffer, [] => (buffer, false, [])
  | buffer, m :: ms =>
      let r := handleInputMessage buffer m
      if r.2.1 then r
      else
        let rest := runInputLoop r.1 ms
        (rest.1, rest.2.1, r.2.2 ++ rest.2.2)

/-- Concatenation of a list of message contents. -/
def concatAll : List String → String
  | [] => ""
  | s :: ss => s ++ concatAll ss

theorem strAppend_assoc (a b c : String) : a ++ b ++ c = a ++ (b ++ c) := by
  cases a with
  | mk ad =>
    cases b with
    | mk bd =>
      cases c with
      | mk cd =>
        show String.mk (ad ++ bd ++ cd) = String.mk (ad ++ (bd ++ cd))
        rw [List.append_assoc]

theorem runInputLoop_buffer (buffer : String) (msgs : List String) :
    ((runInputLoop buffer msgs).2.1 = false →
      (runInputLoop buffer msgs).1 = buffer ++ concatAll msgs) ∧
    ((runInputLoop buffer msgs).2.1 = true →
      (runInputLoop buffer msgs).1 = "exit\r") := by
  induction msgs generalizing buffer with
  | nil =>
      refine ⟨fun _ => ?_, fun h => by simp [runInputLoop] at h⟩
      show buffer = buffer ++ concatAll []
      have : buffer.data = buffer.data ++ [] := by simp
      cases buffer
      simp [concatAll, String.instAppend, String.append]
  | cons m ms ih =>
      by_cases hx : buffer ++ m = "exit\r"
      · refine ⟨fun h => ?_, fun _ => ?_⟩
        · simp [runInputLoop, handleInputMessage, hx] at h
        · simp [runInputLoop, handleInputMessage, hx]
      · have hstep :
            runInputLoop buffer (m :: ms) =
              ((runInputLoop (buffer ++ m) ms).1,
               (runInputLoop (buffer ++ m) ms).2.1,
               m :: (runInputLoop (buffer ++ m) ms).2.2) := by
          simp [runInputLoop, handleInputMessage, hx]
        refine ⟨fun h => ?_, fun h => ?_⟩
        · rw [hstep] at h ⊢
          have := (ih (buffer ++ m)).1 h
          rw [this]
          exact strAppend_assoc buffer m (concatAll ms)
        · rw [hstep] at h ⊢
          exact (ih (buffer ++ m)).2 h

theorem runInputLoop_exit_prefix (buffer : String) (msgs : List String)
    (h : (runInputLoop buffer msgs).2.1 = true) :
    ∃ k, buffer ++ concatAll (msgs.take k) = "exit\r" := by
  induction msgs generalizing buffer with
  | nil => simp [runInputLoop] at h
  | cons m ms ih =>
      by_cases hx : buffer ++ m = "exit\r"
      · refine ⟨1, ?_⟩
        show buffer ++ concatAll [m] = "exit\r"
        have hm : buffer ++ concatAll [m] = buffer ++ m := by
          cases buffer with
          | mk bd =>
            cases m with
            | mk md =>
              simp [concatAll, String.instAppend, String.append]
        rw [hm, hx]
      · have hstep :
            (runInputLoop buffer (m :: ms)).2.1 =
              (runInputLoop (buffer ++ m) ms).2.1 := by
          simp [runInputLoop, handleInputMessage, hx]
        rw [hstep] at h
        obtain ⟨k, hk⟩ := ih (buffer ++ m) h
        refine ⟨k + 1, ?_⟩
        show buffer ++ concatAll (m :: ms.take k) = "exit\r"
        have hm : buffer ++ concatAll (m :: ms.take k) =
            buffer ++ m ++ concatAll (ms.take k) :=
          (strAppend_assoc buffer m (concatAll (ms.take k))).symm
        rw [hm, hk]

/-- C10: in the raw-keystroke variant the command buffer is appended to on
every input message and never cleared: as long as the exit sentinel has not
fired the buffer equals the initial buffer followed by the concatenation of
all message contents; when the sentinel fires the buffer is exactly `"exit\r"`,
and — starting from the fresh empty buffer — the sentinel can fire only when
`"exit\r"` is the entire input received since the connection began (the
concatenation of some initial run of the messages). -/
theorem c10_input_buffer_monotone (buffer : String) (msgs : List String) :
    ((runInputLoop buffer msgs).2.1 = false →
      (runInputLoop buffer msgs).1 = buffer ++ concatAll msgs) ∧
    ((runInputLoop buffer msgs).2.1 = true →
      (runInputLoop buffer msgs).1 = "exit\r") ∧
    ((runInputLoop "" msgs).2.1 = true →
      ∃ k, concatAll (msgs.take k) = "exit\r") := by
  refine ⟨(runInputLoop_buffer buffer msgs).1,
    (runInputLoop_buffer buffer msgs).2, fun h => ?_⟩
  obtain ⟨k, hk⟩ := runInputLoop_exit_prefix "" msgs h
  refine ⟨k, ?_⟩
  rw [← hk]
  cases hc : concatAll (msgs.take k) with
  | mk cd => simp [String.instAppend, String.append, hc]

/-- Concrete instantiation of `c10_input_buffer_monotone`: the fragments "l",
"s" leave the buffer "ls" without firing the sentinel, and the fragments "exit",
"\r" fire the sentinel with the buffer exactly "exit\r". -/
theorem c10_input_buffer_monotone_witness :
    (runInputLoop "" ["l", "s"]).1 = "" ++ concatAll ["l", "s"] ∧
    (runInputLoop "" ["exit", "\x0d"]).1 = "exit\r" ∧
    ∃ k, concatAll (["exit", "\x0d"].take k) = "exit\r" := by
  refine ⟨(c10_input_buffer_monotone "" ["l", "s"]).1 (by decide),
    (c10_input_buffer_monotone "" ["exit", "\x0d"]).2.1 (by decide),
    (c10_input_buffer_monotone "" ["exit", "\x0d"]).2.2 (by decide)⟩

end WsSsh
